import Mathlib

/-!
Verification of the texture builder in src/texture.rs (create_pattern_wgpu).

The embedding models the single-precision float arithmetic of the source over
the exact rationals ℚ: every numeric literal is taken at its exact decimal
value, and +, -, *, / are exact.  All tolerance claims of the spec (1e-5,
1e-6) sit many orders of magnitude above float32 rounding error, and the
exactness claims (identity fixed-point, exact-zero determinant test, zero
rows) involve only arithmetic on 0 and 1 that float32 performs exactly, so ℚ
is a faithful idealization for the stated properties.

Byte-level buffer contents are modelled as lists of byte values (Nat < 256);
the float-to-4-bytes encoding performed by the platform memcpy (bytemuck) is
kept abstract as a parameter with a 4-bytes-per-float length law, while u16
index encoding is concrete little-endian arithmetic.
-/

namespace CreatePatternWgpu

/-- A 4x4 matrix as the Rust [[f32; 4]; 4], row-major, entry mIJ = a[I][J]. -/
structure Mat4 where
  m00 : ℚ
  m01 : ℚ
  m02 : ℚ
  m03 : ℚ
  m10 : ℚ
  m11 : ℚ
  m12 : ℚ
  m13 : ℚ
  m20 : ℚ
  m21 : ℚ
  m22 : ℚ
  m23 : ℚ
  m30 : ℚ
  m31 : ℚ
  m32 : ℚ
  m33 : ℚ
deriving DecidableEq, Repr

/-- The 16 entries in row-major order, as the flat float stream a memcpy of
the Rust array produces. -/
def mat4Floats (a : Mat4) : List ℚ :=
  [a.m00, a.m01, a.m02, a.m03,
   a.m10, a.m11, a.m12, a.m13,
   a.m20, a.m21, a.m22, a.m23,
   a.m30, a.m31, a.m32, a.m33]

/-- Entry access by row and column index. -/
def Mat4.get (a : Mat4) (i j : Fin 4) : ℚ :=
  (mat4Floats a).getD (4 * i.val + j.val) 0

/-- The 4x4 identity matrix. -/
def identity4 : Mat4 :=
  ⟨1, 0, 0, 0,
   0, 1, 0, 0,
   0, 0, 1, 0,
   0, 0, 0, 1⟩

/-- Row-by-column 4x4 matrix product. -/
def Mat4.mul (a b : Mat4) : Mat4 where
  m00 := a.m00 * b.m00 + a.m01 * b.m10 + a.m02 * b.m20 + a.m03 * b.m30
  m01 := a.m00 * b.m01 + a.m01 * b.m11 + a.m02 * b.m21 + a.m03 * b.m31
  m02 := a.m00 * b.m02 + a.m01 * b.m12 + a.m02 * b.m22 + a.m03 * b.m32
  m03 := a.m00 * b.m03 + a.m01 * b.m13 + a.m02 * b.m23 + a.m03 * b.m33
  m10 := a.m10 * b.m00 + a.m11 * b.m10 + a.m12 * b.m20 + a.m13 * b.m30
  m11 := a.m10 * b.m01 + a.m11 * b.m11 + a.m12 * b.m21 + a.m13 * b.m31
  m12 := a.m10 * b.m02 + a.m11 * b.m12 + a.m12 * b.m22 + a.m13 * b.m32
  m13 := a.m10 * b.m03 + a.m11 * b.m13 + a.m12 * b.m23 + a.m13 * b.m33
  m20 := a.m20 * b.m00 + a.m21 * b.m10 + a.m22 * b.m20 + a.m23 * b.m30
  m21 := a.m20 * b.m01 + a.m21 * b.m11 + a.m22 * b.m21 + a.m23 * b.m31
  m22 := a.m20 * b.m02 + a.m21 * b.m12 + a.m22 * b.m22 + a.m23 * b.m32
  m23 := a.m20 * b.m03 + a.m21 * b.m13 + a.m22 * b.m23 + a.m23 * b.m33
  m30 := a.m30 * b.m00 + a.m31 * b.m10 + a.m32 * b.m20 + a.m33 * b.m30
  m31 := a.m30 * b.m01 + a.m31 * b.m11 + a.m32 * b.m21 + a.m33 * b.m31
  m32 := a.m30 * b.m02 + a.m31 * b.m12 + a.m32 * b.m22 + a.m33 * b.m32
  m33 := a.m30 * b.m03 + a.m31 * b.m13 + a.m32 * b.m23 + a.m33 * b.m33

/-- The determinant exactly as texture.rs lines 72-85 computes it: twelve 2x2
subdeterminants b00..b11 of the top and bottom two-row blocks, then the fixed
signed combination. -/
def det4 (a : Mat4) : ℚ :=
  let b00 := a.m00 * a.m11 - a.m01 * a.m10
  let b01 := a.m00 * a.m12 - a.m02 * a.m10
  let b02 := a.m00 * a.m13 - a.m03 * a.m10
  let b03 := a.m01 * a.m12 - a.m02 * a.m11
  let b04 := a.m01 * a.m13 - a.m03 * a.m11
  let b05 := a.m02 * a.m13 - a.m03 * a.m12
  let b06 := a.m20 * a.m31 - a.m21 * a.m30
  let b07 := a.m20 * a.m32 - a.m22 * a.m30
  let b08 := a.m20 * a.m33 - a.m23 * a.m30
  let b09 := a.m21 * a.m32 - a.m22 * a.m31
  let b10 := a.m21 * a.m33 - a.m23 * a.m31
  let b11 := a.m22 * a.m33 - a.m23 * a.m32
  b00 * b11 - b01 * b10 + b02 * b09 + b03 * b08 - b04 * b07 + b05 * b06

/-- The 16 scaled adjugate entries of texture.rs lines 91-108: each signed
cofactor times det, where det has been replaced by 1/det (line 91). -/
def invScaled (a : Mat4) : Mat4 :=
  let b00 := a.m00 * a.m11 - a.m01 * a.m10
  let b01 := a.m00 * a.m12 - a.m02 * a.m10
  let b02 := a.m00 * a.m13 - a.m03 * a.m10
  let b03 := a.m01 * a.m12 - a.m02 * a.m11
  let b04 := a.m01 * a.m13 - a.m03 * a.m11
  let b05 := a.m02 * a.m13 - a.m03 * a.m12
  let b06 := a.m20 * a.m31 - a.m21 * a.m30
  let b07 := a.m20 * a.m32 - a.m22 * a.m30
  let b08 := a.m20 * a.m33 - a.m23 * a.m30
  let b09 := a.m21 * a.m32 - a.m22 * a.m31
  let b10 := a.m21 * a.m33 - a.m23 * a.m31
  let b11 := a.m22 * a.m33 - a.m23 * a.m32
  let det := b00 * b11 - b01 * b10 + b02 * b09 + b03 * b08 - b04 * b07 + b05 * b06
  let det := 1 / det
  ⟨(a.m11 * b11 - a.m12 * b10 + a.m13 * b09) * det,
   (a.m02 * b10 - a.m01 * b11 - a.m03 * b09) * det,
   (a.m31 * b05 - a.m32 * b04 + a.m33 * b03) * det,
   (a.m22 * b04 - a.m21 * b05 - a.m23 * b03) * det,
   (a.m12 * b08 - a.m10 * b11 - a.m13 * b07) * det,
   (a.m00 * b11 - a.m02 * b08 + a.m03 * b07) * det,
   (a.m32 * b02 - a.m30 * b05 - a.m33 * b01) * det,
   (a.m20 * b05 - a.m22 * b02 + a.m23 * b01) * det,
   (a.m10 * b10 - a.m11 * b08 + a.m13 * b06) * det,
   (a.m01 * b08 - a.m00 * b10 - a.m03 * b06) * det,
   (a.m30 * b04 - a.m31 * b02 + a.m33 * b00) * det,
   (a.m21 * b02 - a.m20 * b04 - a.m23 * b00) * det,
   (a.m11 * b07 - a.m10 * b09 - a.m12 * b06) * det,
   (a.m00 * b09 - a.m01 * b07 + a.m02 * b06) * det,
   (a.m31 * b01 - a.m30 * b03 - a.m32 * b00) * det,
   (a.m20 * b03 - a.m21 * b01 + a.m22 * b00) * det⟩

/-- fn inverse (texture.rs lines 54-111): None exactly when the determinant
is exactly zero, otherwise the adjugate scaled by 1/det.  The determinant and
the entry formulas are factored into det4 and invScaled; both repeat the
source's b00..b11 subdeterminants verbatim. -/
def inverse (a : Mat4) : Option Mat4 :=
  if det4 a = 0 then none else some (invScaled a)

/-! ## Vertex data and buffer layout (texture.rs lines 16-52) -/

/-- struct Vertex: position [f32; 3] then tex_coords [f32; 2], repr(C). -/
structure Vertex where
  position : ℚ × ℚ × ℚ
  tex_coords : ℚ × ℚ
deriving DecidableEq, Repr

/-- wgpu::VertexFormat, restricted to the two formats the source uses. -/
inductive VertexFormat where
  | float32x2
  | float32x3
deriving DecidableEq, Repr

/-- wgpu::VertexStepMode. -/
inductive VertexStepMode where
  | vertex
  | perInstance
deriving DecidableEq, Repr

/-- wgpu::VertexAttribute. -/
structure VertexAttribute where
  offset : Nat
  shader_location : Nat
  format : VertexFormat
deriving DecidableEq, Repr

/-- wgpu::VertexBufferLayout. -/
structure VertexBufferLayout where
  array_stride : Nat
  step_mode : VertexStepMode
  attributes : List VertexAttribute
deriving DecidableEq, Repr

/-- mem::size_of::<Vertex>(): repr(C) with five f32 fields, each 4 bytes and
4-aligned, so no padding: 3*4 + 2*4 = 20. -/
def sizeOfVertex : Nat := 3 * 4 + 2 * 4

/-- mem::size_of::<[f32; 3]>() = 12, the offset of tex_coords. -/
def sizeOfFloat3 : Nat := 3 * 4

/-- Vertex::desc (texture.rs lines 33-51). -/
def Vertex.desc : VertexBufferLayout where
  array_stride := sizeOfVertex
  step_mode := VertexStepMode.vertex
  attributes :=
    [{ offset := 0, shader_location := 0, format := VertexFormat.float32x3 },
     { offset := sizeOfFloat3, shader_location := 1, format := VertexFormat.float32x2 }]

/-! ## Geometry and transform constants (texture.rs lines 177-226) -/

/-- The four quad vertices of texture.rs lines 183-203, with x = 640.0 and
y = 360.0 and the active [0,1]x[0,1] tex_coords. -/
def quadVertices : List Vertex :=
  [{ position := (0, 0, 0), tex_coords := (0, 0) },
   { position := (640, 0, 0), tex_coords := (1, 0) },
   { position := (640, 360, 0), tex_coords := (1, 1) },
   { position := (0, 360, 0), tex_coords := (0, 1) }]

/-- let indices: [u16; 6] = [1, 0, 2, 0, 2, 3] (texture.rs line 204). -/
def quadIndices : List Nat := [1, 0, 2, 0, 2, 3]

/-- let bitmap_rotate = 0.9998476951563913 (texture.rs line 217). -/
def bitmap_rotate : ℚ := 0.9998476951563913

/-- let bitmap_scale = 0.017452406437283376 (texture.rs line 218). -/
def bitmap_scale : ℚ := 0.017452406437283376

/-- The fixed matrix m of texture.rs lines 221-226. -/
def bitmapTransformM : Mat4 :=
  ⟨bitmap_scale, bitmap_rotate, 0, 0,
   -bitmap_rotate, bitmap_scale, 0, 0,
   0, 0, 1, 0,
   0, 0, 0, 1⟩

/-- The transform field uploaded at texture.rs lines 231-236; its (1,0) entry
is written -0.0 in the source, which equals 0. -/
def transformIdentity : Mat4 :=
  ⟨1, 0, 0, 0,
   -0, 1, 0, 0,
   0, 0, 1, 0,
   0, 0, 0, 1⟩

/-! ## The texture bundle (texture.rs lines 124-252) -/

/-- struct TextureTransform (texture.rs lines 23-30), repr(C), Pod. -/
structure TextureTransform where
  transform : Mat4
  bitmap_transform : Mat4
  inverse_bitmap_transform : Mat4
  image_dimension : ℚ × ℚ × ℚ × ℚ
deriving DecidableEq, Repr

/-- The CPU-computed contents of the bundle built by Texture::from_image:
the vertex data, the index data and the uniform payload.  The GPU handles
(texture, view, sampler and the buffers themselves) carry no further
computed data and are left to the graphics backend. -/
structure Bundle where
  vertices : List Vertex
  indices : List Nat
  uniform : TextureTransform
deriving DecidableEq, Repr

/-- Texture::from_image generalized over the bitmap transform matrix m (the
source fixes m = bitmapTransformM; the spec allows any caller-supplied
rotation-scale).  w and h are the decoded image dimensions.  The source
computes inverse(m).unwrap(): on None the unwrap panics, construction fails
and no bundle is produced, here coarsely modelled as none; on Some the
bundle is built.  This success-or-nothing view serves the claims about
successfully built bundles; from_imageRunWith below refines the failure
path, distinguishing the panic from a returned error. -/
def from_imageWith (m : Mat4) (w h : Nat) : Option Bundle :=
  match inverse m with
  | none => none
  | some inv =>
    some { vertices := quadVertices
           indices := quadIndices
           uniform := { transform := transformIdentity
                        bitmap_transform := m
                        inverse_bitmap_transform := inv
                        image_dimension := ((w : ℚ), (h : ℚ), 0, 1) } }

/-- Texture::from_image (texture.rs lines 124-252) with the fixed matrix m of
lines 221-226. -/
def from_image (w h : Nat) : Option Bundle :=
  from_imageWith bitmapTransformM w h

/-- How a call to Texture::from_image can end.  The function's return type
anyhow::Result<Self> allows bundle (Ok) and errReturn (a returned Err), but
a panic escapes by unwinding instead of returning, so it is a third,
distinct outcome. -/
inductive BuildOutcome where
  | bundle (b : Bundle)
  | errReturn
  | panicked
deriving DecidableEq, Repr

/-- The outcome of Texture::from_image, generalized over the bitmap
transform matrix and keeping the failure mechanism of the source: on a
singular matrix the inverse(m).unwrap() at texture.rs line 238 panics, it
does not build an Err value, and no code path of from_image past the image
decode produces an Err, so errReturn is never reached. -/
def from_imageRunWith (m : Mat4) (w h : Nat) : BuildOutcome :=
  match inverse m with
  | none => BuildOutcome.panicked
  | some inv =>
    BuildOutcome.bundle
      { vertices := quadVertices
        indices := quadIndices
        uniform := { transform := transformIdentity
                     bitmap_transform := m
                     inverse_bitmap_transform := inv
                     image_dimension := ((w : ℚ), (h : ℚ), 0, 1) } }

/-! ## Byte-level buffer contents -/

/-- Little-endian encoding of a u16 value as two bytes. -/
def u16le (n : Nat) : List Nat := [n % 256, n / 256 % 256]

/-- The index buffer bytes: bytemuck::cast_slice of the u16 index array, i.e.
each index as two little-endian bytes, in order. -/
def indexBytes (ix : List Nat) : List Nat := ix.flatMap u16le

/-- The 52 floats of a TextureTransform in declaration order: transform,
bitmap_transform, inverse_bitmap_transform (16 each, row-major), then the 4
floats of image_dimension.  repr(C) with only f32-based fields has no
padding, so a memcpy of the struct is exactly this float stream. -/
def payloadFloats (t : TextureTransform) : List ℚ :=
  mat4Floats t.transform ++ mat4Floats t.bitmap_transform ++
    mat4Floats t.inverse_bitmap_transform ++
    [t.image_dimension.1, t.image_dimension.2.1,
     t.image_dimension.2.2.1, t.image_dimension.2.2.2]

/-- The uniform buffer bytes, given an encoder enc mapping one f32 value to
its four bytes (the platform's little-endian IEEE-754 bit pattern; kept
abstract, constrained to 4 bytes per float where needed). -/
def encAll (enc : ℚ → List Nat) : List ℚ → List Nat
  | [] => []
  | q :: qs => enc q ++ encAll enc qs

/-! ## Helper lemmas -/

theorem encAll_length (enc : ℚ → List Nat) (henc : ∀ x, (enc x).length = 4) :
    ∀ l : List ℚ, (encAll enc l).length = 4 * l.length := by
  intro l
  induction l with
  | nil => simp [encAll]
  | cons q qs ih => simp [encAll, henc q, ih]; ring

theorem encAll_drop4 (enc : ℚ → List Nat) (henc : ∀ x, (enc x).length = 4) :
    ∀ (k : Nat) (l : List ℚ), (encAll enc l).drop (4 * k) = encAll enc (l.drop k) := by
  intro k
  induction k with
  | zero => simp
  | succ n ih =>
    intro l
    cases l with
    | nil => simp [encAll]
    | cons q qs =>
      rw [List.drop_succ_cons]
      rw [show 4 * (n + 1) = (enc q).length + 4 * n by rw [henc q]; ring]
      rw [encAll, List.drop_append]
      exact ih qs

theorem payloadFloats_length (t : TextureTransform) : (payloadFloats t).length = 52 := by
  simp [payloadFloats, mat4Floats]

theorem det4_bitmapM : det4 bitmapTransformM = bitmap_scale ^ 2 + bitmap_rotate ^ 2 := by
  simp [det4, bitmapTransformM]; ring

theorem det4_bitmapM_ne_zero : det4 bitmapTransformM ≠ 0 := by
  rw [det4_bitmapM]
  norm_num [bitmap_scale, bitmap_rotate]

theorem inverse_bitmapM : inverse bitmapTransformM = some (invScaled bitmapTransformM) := by
  simp [inverse, det4_bitmapM_ne_zero]

theorem from_image_some (w h : Nat) :
    from_image w h =
      some { vertices := quadVertices
             indices := quadIndices
             uniform := { transform := transformIdentity
                          bitmap_transform := bitmapTransformM
                          inverse_bitmap_transform := invScaled bitmapTransformM
                          image_dimension := ((w : ℚ), (h : ℚ), 0, 1) } } := by
  rw [from_image, from_imageWith, inverse_bitmapM]

set_option maxHeartbeats 2000000 in
theorem mul_invScaled (a : Mat4) (h : det4 a ≠ 0) :
    Mat4.mul a (invScaled a) = identity4 := by
  have hd : (a.m00 * a.m11 - a.m01 * a.m10) * (a.m22 * a.m33 - a.m23 * a.m32) -
      (a.m00 * a.m12 - a.m02 * a.m10) * (a.m21 * a.m33 - a.m23 * a.m31) +
      (a.m00 * a.m13 - a.m03 * a.m10) * (a.m21 * a.m32 - a.m22 * a.m31) +
      (a.m01 * a.m12 - a.m02 * a.m11) * (a.m20 * a.m33 - a.m23 * a.m30) -
      (a.m01 * a.m13 - a.m03 * a.m11) * (a.m20 * a.m32 - a.m22 * a.m30) +
      (a.m02 * a.m13 - a.m03 * a.m12) * (a.m20 * a.m31 - a.m21 * a.m30) ≠ 0 := by
    simpa [det4] using h
  simp only [Mat4.mul, invScaled, identity4, Mat4.mk.injEq]
  refine ⟨?_, ?_, ?_, ?_, ?_, ?_, ?_, ?_, ?_, ?_, ?_, ?_, ?_, ?_, ?_, ?_⟩ <;>
    (field_simp; ring)

/-- The expected inverse of Scenario A in spec section 8: the transpose of
the rotation-scale block, zeros and ones elsewhere. -/
def scenarioAExpected : Mat4 :=
  ⟨0.017452406437283376, -0.9998476951563913, 0, 0,
   0.9998476951563913, 0.017452406437283376, 0, 0,
   0, 0, 1, 0,
   0, 0, 0, 1⟩

/-! ## The claims -/

/-- C4: the inverse function applied to the 4x4 identity matrix returns Some
of the identity matrix, every entry exactly equal. -/
theorem inverse_identity_fixed_point : inverse identity4 = some identity4 := by
  norm_num [inverse, det4, invScaled, identity4, Mat4.mk.injEq]

/-- C3: inverse returns None exactly when the determinant of the
twelve-subdeterminant cofactor formula is exactly zero (no epsilon); every
matrix with a zero row yields None and no output matrix; any matrix with
nonzero determinant (however near-singular) yields a non-empty result. -/
theorem singular_exact_detection :
    (∀ M : Mat4, inverse M = none ↔ det4 M = 0) ∧
    (∀ M : Mat4,
      ((M.m00 = 0 ∧ M.m01 = 0 ∧ M.m02 = 0 ∧ M.m03 = 0) ∨
       (M.m10 = 0 ∧ M.m11 = 0 ∧ M.m12 = 0 ∧ M.m13 = 0) ∨
       (M.m20 = 0 ∧ M.m21 = 0 ∧ M.m22 = 0 ∧ M.m23 = 0) ∨
       (M.m30 = 0 ∧ M.m31 = 0 ∧ M.m32 = 0 ∧ M.m33 = 0)) →
      inverse M = none) ∧
    (∀ M : Mat4, det4 M ≠ 0 → ∃ N, inverse M = some N) := by
  refine ⟨fun M => ?_, fun M hrow => ?_, fun M h => ⟨invScaled M, by simp [inverse, h]⟩⟩
  · unfold inverse
    split <;> simp_all
  · have hz : det4 M = 0 := by
      rcases hrow with ⟨h0, h1, h2, h3⟩ | ⟨h0, h1, h2, h3⟩ | ⟨h0, h1, h2, h3⟩ |
        ⟨h0, h1, h2, h3⟩ <;> simp [det4, h0, h1, h2, h3]
    simp [inverse, hz]

/-- Witness for C3: a concrete matrix with a zero first row is reported
singular. -/
theorem singular_exact_detection_witness :
    inverse (Mat4.mk 0 0 0 0 1 2 3 4 5 6 7 8 9 10 11 12) = none :=
  singular_exact_detection.2.1 _ (Or.inl ⟨rfl, rfl, rfl, rfl⟩)

/-- C2: for the fixed bitmap transform matrix, inverse returns Some of a
matrix each of whose entries is within 1e-6 of the Scenario A expected
matrix. -/
theorem known_inverse_scenarioA :
    ∃ N, inverse bitmapTransformM = some N ∧
      ∀ i j : Fin 4, |N.get i j - scenarioAExpected.get i j| ≤ 1 / 1000000 := by
  refine ⟨invScaled bitmapTransformM, inverse_bitmapM, fun i j => ?_⟩
  fin_cases i <;> fin_cases j <;>
    norm_num [Mat4.get, mat4Floats, List.getD, invScaled, scenarioAExpected,
      bitmapTransformM, bitmap_scale, bitmap_rotate, abs_le]

/-- C9: for every matrix with nonzero determinant, inverse returns Some N
with M*N within 1e-5 of the identity in every entry (here exactly equal, so
the bound holds). -/
theorem inverse_round_trip (M : Mat4) (h : det4 M ≠ 0) :
    ∃ N, inverse M = some N ∧
      ∀ i j : Fin 4, |(Mat4.mul M N).get i j - identity4.get i j| ≤ 1 / 100000 := by
  refine ⟨invScaled M, by simp [inverse, h], fun i j => ?_⟩
  rw [mul_invScaled M h, sub_self, abs_zero]
  norm_num

/-- Witness for C9: the hypothesis and conclusion hold at the concrete
matrix with first row 2 0 0 0 and identity elsewhere. -/
theorem inverse_round_trip_witness :
    det4 (Mat4.mk 2 0 0 0 0 1 0 0 0 0 1 0 0 0 0 1) ≠ 0 ∧
      ∃ N, inverse (Mat4.mk 2 0 0 0 0 1 0 0 0 0 1 0 0 0 0 1) = some N ∧
        ∀ i j : Fin 4,
          |(Mat4.mul (Mat4.mk 2 0 0 0 0 1 0 0 0 0 1 0 0 0 0 1) N).get i j -
            identity4.get i j| ≤ 1 / 100000 :=
  ⟨by norm_num [det4], inverse_round_trip _ (by norm_num [det4])⟩

/-- Counterexample for C1 as stated: for the concrete all-zero (hence
singular) bitmap transform and a 1x1 image, inversion fails, yet
construction does not return an error — the unwrap at texture.rs line 238
panics, so the outcome is panicked, not errReturn. -/
theorem singular_construction_failure_counterexample :
    inverse (Mat4.mk 0 0 0 0 0 0 0 0 0 0 0 0 0 0 0 0) = none ∧
    from_imageRunWith (Mat4.mk 0 0 0 0 0 0 0 0 0 0 0 0 0 0 0 0) 1 1 =
      BuildOutcome.panicked ∧
    from_imageRunWith (Mat4.mk 0 0 0 0 0 0 0 0 0 0 0 0 0 0 0 0) 1 1 ≠
      BuildOutcome.errReturn := by
  have hnone : inverse (Mat4.mk 0 0 0 0 0 0 0 0 0 0 0 0 0 0 0 0) = none := by
    simp [inverse, det4]
  refine ⟨hnone, ?_, ?_⟩ <;> simp [from_imageRunWith, hnone]

/-- C1 amended: when inversion of the bitmap transform fails (determinant
exactly zero), bundle construction fails by the unwrap panicking, not by a
returned error; no bundle and no partial output is produced, and every
bundle that is produced carries the actual computed inverse, so
inverse_bitmap_transform is never published as an undefined matrix. -/
theorem singular_construction_panics (m : Mat4) (w h : Nat) :
    (inverse m = none → from_imageRunWith m w h = BuildOutcome.panicked) ∧
    from_imageRunWith m w h ≠ BuildOutcome.errReturn ∧
    (∀ b, from_imageRunWith m w h = BuildOutcome.bundle b →
      inverse m = some b.uniform.inverse_bitmap_transform) := by
  refine ⟨fun hnone => by simp [from_imageRunWith, hnone], ?_, ?_⟩
  · unfold from_imageRunWith
    cases inverse m <;> simp
  · intro b hb
    unfold from_imageRunWith at hb
    cases hinv : inverse m with
    | none => rw [hinv] at hb; simp at hb
    | some inv =>
      rw [hinv] at hb
      simp only [BuildOutcome.bundle.injEq] at hb
      rw [← hb]

/-- Witness for C1 amended: with the all-zero (hence singular) bitmap
transform and a 1x1 image, construction ends in the panic. -/
theorem singular_construction_panics_witness :
    from_imageRunWith (Mat4.mk 0 0 0 0 0 0 0 0 0 0 0 0 0 0 0 0) 1 1 =
      BuildOutcome.panicked :=
  (singular_construction_panics _ 1 1).1 (by simp [inverse, det4])

/-- C10: the unwrap inside from_image never panics: the fixed bitmap
transform has determinant equal to the sum of the squares of the two
constants, which is nonzero, so inverse returns Some and from_image builds a
bundle for every image dimension. -/
theorem unwrap_never_panics :
    det4 bitmapTransformM = bitmap_scale ^ 2 + bitmap_rotate ^ 2 ∧
    det4 bitmapTransformM ≠ 0 ∧
    ∀ w h : Nat, ∃ b, from_image w h = some b :=
  ⟨det4_bitmapM, det4_bitmapM_ne_zero, fun w h => ⟨_, from_image_some w h⟩⟩

/-- C6: every successfully built bundle uploads a TextureTransform whose
transform is the identity, whose bitmap_transform is the fixed matrix with
sin on the diagonal and cos and minus-cos off-diagonal over a lower-right
identity block, whose inverse_bitmap_transform is exactly what the core
inverter returns on that matrix, and whose image_dimension is (w, h, 0, 1). -/
theorem uniform_payload_fields (w h : Nat) (b : Bundle)
    (hb : from_image w h = some b) :
    b.uniform.transform = identity4 ∧
    b.uniform.bitmap_transform =
      Mat4.mk 0.017452406437283376 0.9998476951563913 0 0
        (-0.9998476951563913) 0.017452406437283376 0 0
        0 0 1 0
        0 0 0 1 ∧
    inverse b.uniform.bitmap_transform = some b.uniform.inverse_bitmap_transform ∧
    b.uniform.image_dimension = ((w : ℚ), (h : ℚ), 0, 1) := by
  rw [from_image_some w h] at hb
  simp only [Option.some.injEq] at hb
  subst hb
  refine ⟨?_, ?_, ?_, rfl⟩
  · norm_num [transformIdentity, identity4, Mat4.mk.injEq]
  · norm_num [bitmapTransformM, bitmap_scale, bitmap_rotate, Mat4.mk.injEq]
  · exact inverse_bitmapM

/-- Witness for C6: the payload fields at a 256x128 image. -/
theorem uniform_payload_fields_witness :
    ∃ b, from_image 256 128 = some b ∧
      b.uniform.transform = identity4 ∧
      b.uniform.image_dimension = (((256 : Nat) : ℚ), ((128 : Nat) : ℚ), 0, 1) :=
  ⟨_, from_image_some 256 128,
    (uniform_payload_fields 256 128 _ (from_image_some 256 128)).1,
    (uniform_payload_fields 256 128 _ (from_image_some 256 128)).2.2.2⟩

/-- C5: the uniform payload is exactly 52 floats, 208 bytes with no padding,
in field order transform, bitmap_transform, inverse_bitmap_transform,
image_dimension, so for an image of width w and height h the bytes 192..208
are the encodings of the four floats w, h, 0, 1 in that order, for any
4-bytes-per-float encoder (the platform uses little-endian IEEE-754). -/
theorem uniform_byte_layout (enc : ℚ → List Nat)
    (henc : ∀ x, (enc x).length = 4) (w h : Nat) (b : Bundle)
    (hb : from_image w h = some b) :
    (payloadFloats b.uniform).length = 52 ∧
    (encAll enc (payloadFloats b.uniform)).length = 208 ∧
    (encAll enc (payloadFloats b.uniform)).drop 192 =
      enc (w : ℚ) ++ enc (h : ℚ) ++ enc 0 ++ enc 1 := by
  refine ⟨payloadFloats_length _, ?_, ?_⟩
  · rw [encAll_length enc henc, payloadFloats_length]
  · rw [from_image_some w h] at hb
    simp only [Option.some.injEq] at hb
    subst hb
    rw [show (192 : Nat) = 4 * 48 from rfl, encAll_drop4 enc henc]
    have hdrop :
        (payloadFloats { transform := transformIdentity
                         bitmap_transform := bitmapTransformM
                         inverse_bitmap_transform := invScaled bitmapTransformM
                         image_dimension := ((w : ℚ), (h : ℚ), 0, 1) }).drop 48 =
          [(w : ℚ), (h : ℚ), 0, 1] := by
      simp [payloadFloats, mat4Floats]
    rw [hdrop]
    simp [encAll, List.append_assoc]

/-- A trivial 4-bytes-per-float encoder used to witness C5. -/
def zeroEnc : ℚ → List Nat := fun _ => [0, 0, 0, 0]

/-- Witness for C5: the layout facts at a 256x128 image with a concrete
4-byte encoder. -/
theorem uniform_byte_layout_witness :
    ∃ b, from_image 256 128 = some b ∧
      (payloadFloats b.uniform).length = 52 ∧
      (encAll zeroEnc (payloadFloats b.uniform)).length = 208 ∧
      (encAll zeroEnc (payloadFloats b.uniform)).drop 192 =
        zeroEnc ((256 : Nat) : ℚ) ++ zeroEnc ((128 : Nat) : ℚ) ++
          zeroEnc 0 ++ zeroEnc 1 :=
  ⟨_, from_image_some 256 128,
    uniform_byte_layout zeroEnc (fun _ => rfl) 256 128 _ (from_image_some 256 128)⟩

/-- C7: every constructed bundle's index buffer holds exactly the six 16-bit
little-endian indices 1, 0, 2, 0, 2, 3, i.e. the twelve bytes
01 00 00 00 02 00 00 00 02 00 03 00, each index below the four emitted quad
vertices. -/
theorem index_buffer_contents (w h : Nat) (b : Bundle)
    (hb : from_image w h = some b) :
    indexBytes b.indices = [1, 0, 0, 0, 2, 0, 0, 0, 2, 0, 3, 0] ∧
    b.vertices.length = 4 ∧
    ∀ i ∈ b.indices, i < 4 := by
  rw [from_image_some w h] at hb
  simp only [Option.some.injEq] at hb
  subst hb
  refine ⟨?_, rfl, ?_⟩
  · show indexBytes quadIndices = [1, 0, 0, 0, 2, 0, 0, 0, 2, 0, 3, 0]
    decide
  · show ∀ i ∈ quadIndices, i < 4
    decide

/-- Witness for C7: the index buffer facts at a 256x128 image. -/
theorem index_buffer_contents_witness :
    ∃ b, from_image 256 128 = some b ∧
      indexBytes b.indices = [1, 0, 0, 0, 2, 0, 0, 0, 2, 0, 3, 0] ∧
      b.vertices.length = 4 ∧
      ∀ i ∈ b.indices, i < 4 :=
  ⟨_, from_image_some 256 128,
    index_buffer_contents 256 128 _ (from_image_some 256 128)⟩

/-- C8: Vertex::desc declares array stride 20, per-vertex stepping, and
exactly the two attributes float32x3 at offset 0 with shader location 0 and
float32x2 at offset 12 with shader location 1. -/
theorem vertex_layout_descriptor :
    Vertex.desc.array_stride = 20 ∧
    Vertex.desc.step_mode = VertexStepMode.vertex ∧
    Vertex.desc.attributes =
      [{ offset := 0, shader_location := 0, format := VertexFormat.float32x3 },
       { offset := 12, shader_location := 1, format := VertexFormat.float32x2 }] :=
  ⟨rfl, rfl, rfl⟩

end CreatePatternWgpu
